import Mathlib

/-!
Verification development for the Townspark civic-issue backend.

This file gives a shallow embedding, in Lean, of the issue workflow engine,
the engagement layer (upvote / comment-like toggles), the notification
factory functions, the permission predicates and the response envelope
builders of the repository, and proves properties of the specification
against that embedding.

Conventions of the embedding:
* database tables are Lean lists; an SQL `UPDATE ... WHERE pk = x` is a
  `List.map` that rewrites the rows whose key matches `x`;
* Python `None` / nullable columns are `Option`;
* `auto_now_add` timestamps are modelled by a logical clock that advances
  by one after every request;
* Django request handlers become pure functions `DB -> ... -> DB x Resp`;
  the DRF permission-class gate is the first conditional of each handler;
* Python decimal rendering of an `int` (an f-string) and `int(...)` parsing
  of a digit string are modelled by the executable helpers below, and
  `str.split('-')` by `splitOnChar`.
-/

namespace Townspark

/-- Decimal digit character: models how Python renders one digit of an int. -/
def digitChar : Nat → Char
  | 0 => '0' | 1 => '1' | 2 => '2' | 3 => '3' | 4 => '4'
  | 5 => '5' | 6 => '6' | 7 => '7' | 8 => '8' | _ => '9'

/-- Decimal digits of `n`, least significant first, with explicit fuel so the
definition is structurally recursive (`[]` for `n = 0`). -/
def natDigitsRevFuel : Nat → Nat → List Char
  | 0, _ => []
  | _ + 1, 0 => []
  | fuel + 1, n + 1 => digitChar ((n + 1) % 10) :: natDigitsRevFuel fuel ((n + 1) / 10)

/-- Decimal digits of `n`, least significant first (empty for `n = 0`). -/
def natDigitsRev (n : Nat) : List Char := natDigitsRevFuel n n

/-- Decimal rendering of a natural number as a character list: models the
Python rendering of an `int` inside an f-string. -/
def natDigits (n : Nat) : List Char :=
  if n = 0 then ['0'] else (natDigitsRev n).reverse

/-- The issue identifier produced by the f-string `TS-{num}` of
`Issue.generate_issue_id`. -/
def formatIssueId (num : Nat) : String :=
  ⟨['T', 'S', '-'] ++ natDigits num⟩

/-- Model of Python `str.split(sep)` for a one-character separator,
working on the character list of the string. -/
def splitOnChar (sep : Char) : List Char → List (List Char)
  | [] => [[]]
  | c :: cs =>
    if c = sep then [] :: splitOnChar sep cs
    else
      match splitOnChar sep cs with
      | [] => [[c]]
      | h :: t => (c :: h) :: t

/-- Model of Python `int(s)` on the digit strings that occur in issue ids:
`none` models the `ValueError` raised on an empty or non-digit string. -/
def parseNat? (ds : List Char) : Option Nat :=
  if ds.isEmpty then none
  else if ds.all Char.isDigit then
    some (ds.foldl (fun a c => 10 * a + (c.toNat - 48)) 0)
  else none

/-- The numeric suffix of an issue id: models `int(id.split('-')[1])` of
`Issue.generate_issue_id`, with `none` for the caught `IndexError`
(no second chunk) and `ValueError` (unparseable chunk). -/
def numericSuffix (s : String) : Option Nat :=
  match (splitOnChar '-' s.data).get? 1 with
  | none => none
  | some ds => parseNat? ds

/-- Issue status enum (`Issue.Status` in `issues/models.py`). -/
inductive Status
  | reported
  | acknowledged
  | inProgress
  | resolved
deriving DecidableEq

/-- Validation of the `status` choice field of `IssueStatusUpdateSerializer`:
accepts exactly the enum values of `Issue.Status.choices`. -/
def parseStatus (s : String) : Option Status :=
  if s = "reported" then some Status.reported
  else if s = "acknowledged" then some Status.acknowledged
  else if s = "in-progress" then some Status.inProgress
  else if s = "resolved" then some Status.resolved
  else none

/-- A user row (`accounts.User`), with the fields the permission checks and
handlers read. `role` is the plain string of the `UserRole` choices, and
the resolver-profile pair models the optional 1:1 `ResolverProfile` row. -/
structure User where
  uid : Nat
  fullName : String
  role : String
  isAuthenticated : Bool
  isStaff : Bool
  isSuperuser : Bool
  hasResolverProfile : Bool
  profileVerified : Bool
deriving DecidableEq

/-- An issue row (`issues.Issue`). `createdSeq` is the creation clock value,
standing for the `created_at` auto timestamp used only for ordering. -/
structure Issue where
  id : String
  title : String
  status : Status
  reporter : Nat
  assignedResolver : Option Nat
  upvoteCount : Nat
  commentCount : Nat
  shareCount : Nat
  resolvedAt : Option Nat
  createdSeq : Nat
deriving DecidableEq

/-- A timeline row (`issues.IssueTimeline`): appended, never mutated. -/
structure TimelineEntry where
  issueId : String
  status : Status
  note : String
  updatedBy : Option Nat
deriving DecidableEq

/-- A comment row (`issues.Comment`); `parent` is the optional reply target. -/
structure Comment where
  cid : Nat
  issueId : String
  author : Nat
  content : String
  parent : Option Nat
  likeCount : Nat
deriving DecidableEq

/-- A notification row (`notifications.Notification`); `ntype` is the `type`
column (renamed: `type` is a Lean keyword). -/
structure Notification where
  user : Nat
  ntype : String
  title : String
  message : String
  issueId : Option String
  actor : Option Nat
deriving DecidableEq

/-- The relational store: one list per table, plus the logical clock.
Upvote / bookmark rows are their (user id, issue id) pairs, comment-like
rows their (user id, comment id) pairs. -/
structure DB where
  users : List User
  issues : List Issue
  timeline : List TimelineEntry
  upvotes : List (Nat × String)
  bookmarks : List (Nat × String)
  comments : List Comment
  commentLikes : List (Nat × Nat)
  notifications : List Notification
  clock : Nat
deriving DecidableEq

/-- Outcome of a request: the HTTP status code, and for errors the
`error_code` string of the error envelope. -/
inductive Resp
  | ok (code : Nat)
  | err (errorCode : String) (code : Nat)
deriving DecidableEq

/-- Row lookup by primary key: `get_object` / `get_object_or_404` on issues. -/
def findIssue (db : DB) (iid : String) : Option Issue :=
  db.issues.find? (fun i => i.id = iid)

/-- Row lookup by primary key on users (`User.objects.get(id=...)`). -/
def findUser (db : DB) (uid : Nat) : Option User :=
  db.users.find? (fun u => u.uid = uid)

/-- Row lookup by primary key on comments. -/
def findComment (db : DB) (cid : Nat) : Option Comment :=
  db.comments.find? (fun c => c.cid = cid)

/-- `issue.save()`: the UPDATE keyed on the primary key of `i`. -/
def saveIssue (db : DB) (i : Issue) : DB :=
  { db with issues := db.issues.map (fun j => if j.id = i.id then i else j) }

/-- `IssueTimeline.objects.create(...)`: append one timeline row. -/
def appendTimeline (db : DB) (iid : String) (st : Status) (note : String)
    (actor : Option Nat) : DB :=
  { db with timeline := db.timeline ++ [⟨iid, st, note, actor⟩] }

/-- The `IsResolverOrAdmin` permission of `issues/permissions.py`. The
`hasattr(request.user, 'role')` probe is always true on this user model,
so the role comparison is reached unconditionally. -/
def isResolverOrAdmin (u : User) : Bool :=
  if ¬ u.isAuthenticated then false
  else if u.isStaff || u.isSuperuser then true
  else if u.role == "resolver" then true
  else if u.hasResolverProfile then u.profileVerified
  else false

/-- Fold selecting the row with the greatest creation timestamp (keeps the
earlier row on ties, which cannot occur under the strict clock). -/
def latestIssueAux (l : List Issue) : Option Issue :=
  l.foldl
    (fun acc i =>
      match acc with
      | none => some i
      | some j => if j.createdSeq < i.createdSeq then some i else some j)
    none

/-- `Issue.objects.order_by('-created_at').first()`. -/
def latestIssue (db : DB) : Option Issue :=
  latestIssueAux db.issues

/-- The number chosen by `Issue.generate_issue_id`: successor of the numeric
suffix of the most recently created issue's id, with 1000 as the fallback
for an empty table or an unparseable suffix. -/
def genNum (db : DB) : Nat :=
  match latestIssue db with
  | none => 1000
  | some last =>
    match numericSuffix last.id with
    | none => 1000
    | some n => n + 1

/-- `Issue.generate_issue_id`: the formatted `TS-XXXX` identifier. -/
def generate_issue_id (db : DB) : String :=
  formatIssueId (genNum db)

/-- The id actually stored by `Issue.save`: an already-set id is kept, an
unset id (modelled by the empty string, Python falsiness of `None`/`''`)
is replaced by a generated one. -/
def issue_save_id (db : DB) (i : Issue) : String :=
  if i.id = "" then generate_issue_id db else i.id

/-- `POST /issues` (`IssueViewSet.create` + `IssueCreateSerializer.create`):
create the issue (id generated by `Issue.save`, status defaulted to
`reported`) and append the initial timeline row. -/
def create_issue (db : DB) (reporter : User) (title : String) : DB × Resp :=
  if ¬ reporter.isAuthenticated then (db, Resp.err "PERMISSION_DENIED" 403)
  else
    let issue : Issue :=
      { id := generate_issue_id db, title := title, status := Status.reported,
        reporter := reporter.uid, assignedResolver := none,
        upvoteCount := 0, commentCount := 0, shareCount := 0,
        resolvedAt := none, createdSeq := db.clock }
    let db1 := { db with issues := db.issues ++ [issue] }
    let db2 := appendTimeline db1 issue.id Status.reported "Issue reported"
      (some reporter.uid)
    (db2, Resp.ok 201)

/-- `PATCH /issues/{id}/status` (`IssueViewSet.update_status`), guarded by
`IsAuthenticated` and `IsResolverOrAdmin`: validate the requested status,
write the status (stamping `resolved_at` when entering `resolved`), and
append one timeline row. -/
def update_status (db : DB) (actor : User) (iid : String) (reqStatus : String)
    (note : String) : DB × Resp :=
  if ¬ (actor.isAuthenticated && isResolverOrAdmin actor) then
    (db, Resp.err "PERMISSION_DENIED" 403)
  else
    match findIssue db iid with
    | none => (db, Resp.err "NOT_FOUND" 404)
    | some issue =>
      match parseStatus reqStatus with
      | none => (db, Resp.err "VALIDATION_ERROR" 400)
      | some st =>
        let issue1 : Issue :=
          { issue with
            status := st,
            resolvedAt :=
              if st = Status.resolved then some db.clock else issue.resolvedAt }
        let db1 := saveIssue db issue1
        let db2 := appendTimeline db1 iid st note (some actor.uid)
        (db2, Resp.ok 200)

/-- `POST /issues/{id}/assign` (`IssueViewSet.assign`), guarded by
`IsAdminUser` (`is_staff`): look up the resolver, set `assigned_resolver`,
and append a timeline row carrying the unchanged status. -/
def assign (db : DB) (actor : User) (iid : String) (resolverId : Nat) :
    DB × Resp :=
  if ¬ actor.isStaff then (db, Resp.err "PERMISSION_DENIED" 403)
  else
    match findIssue db iid with
    | none => (db, Resp.err "NOT_FOUND" 404)
    | some issue =>
      match findUser db resolverId with
      | none => (db, Resp.err "NOT_FOUND" 404)
      | some resolver =>
        let issue1 := { issue with assignedResolver := some resolver.uid }
        let db1 := saveIssue db issue1
        let db2 := appendTimeline db1 iid issue.status
          ("Assigned to " ++ resolver.fullName) (some actor.uid)
        (db2, Resp.ok 200)

/-- `POST /resolver/issues/{id}/accept` (`ResolverAcceptIssueView.post`):
deny non-resolver non-staff callers, reject an already assigned issue,
otherwise self-assign, set status to `acknowledged`, and append a
timeline row. -/
def accept (db : DB) (actor : User) (iid : String) : DB × Resp :=
  if ¬ actor.isAuthenticated then (db, Resp.err "PERMISSION_DENIED" 403)
  else if actor.role != "resolver" && !actor.isStaff then
    (db, Resp.err "PERMISSION_DENIED" 403)
  else
    match findIssue db iid with
    | none => (db, Resp.err "NOT_FOUND" 404)
    | some issue =>
      if issue.assignedResolver.isSome then
        (db, Resp.err "ALREADY_ASSIGNED" 400)
      else
        let issue1 :=
          { issue with
            assignedResolver := some actor.uid,
            status := Status.acknowledged }
        let db1 := saveIssue db issue1
        let db2 := appendTimeline db1 iid Status.acknowledged
          ("Issue accepted by " ++ actor.fullName) (some actor.uid)
        (db2, Resp.ok 200)

/-- Live aggregate `issue.upvotes.count()`. -/
def liveUpvoteCount (db : DB) (iid : String) : Nat :=
  (db.upvotes.filter (fun p => p.2 = iid)).length

/-- `Issue.update_upvote_count`: recompute the denormalized counter from the
membership table and persist only that field. -/
def update_upvote_count (db : DB) (iid : String) : DB :=
  { db with
    issues := db.issues.map (fun j =>
      if j.id = iid then { j with upvoteCount := liveUpvoteCount db iid } else j) }

/-- `POST /issues/{id}/upvote` (`IssueViewSet.upvote`): `get_or_create` the
membership row, delete it when it already existed, then recompute the
counter. -/
def upvote_toggle (db : DB) (user : User) (iid : String) : DB × Resp :=
  if ¬ user.isAuthenticated then (db, Resp.err "PERMISSION_DENIED" 403)
  else
    match findIssue db iid with
    | none => (db, Resp.err "NOT_FOUND" 404)
    | some _ =>
      if (user.uid, iid) ∈ db.upvotes then
        let db1 := { db with upvotes := db.upvotes.erase (user.uid, iid) }
        (update_upvote_count db1 iid, Resp.ok 200)
      else
        let db1 := { db with upvotes := db.upvotes ++ [(user.uid, iid)] }
        (update_upvote_count db1 iid, Resp.ok 200)

/-- Live aggregate `comment.likes.count()`. -/
def liveLikeCount (db : DB) (cid : Nat) : Nat :=
  (db.commentLikes.filter (fun p => p.2 = cid)).length

/-- `Comment.update_like_count`. -/
def update_like_count (db : DB) (cid : Nat) : DB :=
  { db with
    comments := db.comments.map (fun c =>
      if c.cid = cid then { c with likeCount := liveLikeCount db cid } else c) }

/-- `POST /comments/{id}/like` (`CommentLikeView.post`): the like toggle,
mirroring the upvote toggle on (user, comment). -/
def comment_like_toggle (db : DB) (user : User) (cid : Nat) : DB × Resp :=
  if ¬ user.isAuthenticated then (db, Resp.err "PERMISSION_DENIED" 403)
  else
    match findComment db cid with
    | none => (db, Resp.err "NOT_FOUND" 404)
    | some _ =>
      if (user.uid, cid) ∈ db.commentLikes then
        let db1 := { db with commentLikes := db.commentLikes.erase (user.uid, cid) }
        (update_like_count db1 cid, Resp.ok 200)
      else
        let db1 := { db with commentLikes := db.commentLikes ++ [(user.uid, cid)] }
        (update_like_count db1 cid, Resp.ok 200)

/-- The status-name table of `Notification.create_status_update_notification`
(total here because the status column is the enum; the dict default
`has been updated` is unreachable). -/
def status_name : Status → String
  | Status.reported => "reported"
  | Status.acknowledged => "acknowledged"
  | Status.inProgress => "is now in progress"
  | Status.resolved => "has been resolved"

/-- `Notification.create_status_update_notification`: one row addressed to
the issue's reporter (quote characters of the f-string omitted). -/
def create_status_update_notification (db : DB) (issue : Issue)
    (actor : Option Nat) : DB × Notification :=
  let n : Notification :=
    { user := issue.reporter, ntype := "status_update", title := "Status Update",
      message := "Your issue " ++ issue.title ++ " " ++ status_name issue.status ++ ".",
      issueId := some issue.id, actor := actor }
  ({ db with notifications := db.notifications ++ [n] }, n)

/-- `Notification.create_comment_notification`: suppressed (no row, `None`
returned) when the comment's author is the issue's reporter.
`authorName` stands for `comment.author.full_name`. -/
def create_comment_notification (db : DB) (c : Comment) (issue : Issue)
    (authorName : String) : DB × Option Notification :=
  if c.author = issue.reporter then (db, none)
  else
    let n : Notification :=
      { user := issue.reporter, ntype := "comment", title := "New Comment",
        message := authorName ++ " commented on your issue " ++ issue.title ++ ".",
        issueId := some issue.id, actor := some c.author }
    ({ db with notifications := db.notifications ++ [n] }, some n)

/-- `Notification.create_upvote_notification`: suppressed when the upvoting
user is the issue's reporter. `upvoteUser` is `upvote.user`. -/
def create_upvote_notification (db : DB) (upvoteUser : Nat) (issue : Issue) :
    DB × Option Notification :=
  if upvoteUser = issue.reporter then (db, none)
  else
    let n : Notification :=
      { user := issue.reporter, ntype := "upvote", title := "New Upvote",
        message := "Someone upvoted your issue " ++ issue.title ++ ".",
        issueId := some issue.id, actor := some upvoteUser }
    ({ db with notifications := db.notifications ++ [n] }, some n)

/-- `Notification.create_resolution_notification`: one row addressed to the
issue's reporter. -/
def create_resolution_notification (db : DB) (issue : Issue)
    (actor : Option Nat) : DB × Notification :=
  let n : Notification :=
    { user := issue.reporter, ntype := "resolution", title := "Issue Resolved",
      message := "Great news! Your issue " ++ issue.title ++ " has been resolved.",
      issueId := some issue.id, actor := actor }
  ({ db with notifications := db.notifications ++ [n] }, n)

/-- One inbound request of the workflow / engagement surface. -/
inductive Op
  | createOp (reporter : User) (title : String)
  | statusOp (actor : User) (iid : String) (reqStatus : String) (note : String)
  | acceptOp (actor : User) (iid : String)
  | assignOp (actor : User) (iid : String) (resolverId : Nat)
  | upvoteOp (user : User) (iid : String)
  | likeOp (user : User) (cid : Nat)

/-- The state change of one request (response discarded). -/
def applyOp (db : DB) : Op → DB
  | Op.createOp r t => (create_issue db r t).1
  | Op.statusOp a i s n => (update_status db a i s n).1
  | Op.acceptOp a i => (accept db a i).1
  | Op.assignOp a i r => (assign db a i r).1
  | Op.upvoteOp u i => (upvote_toggle db u i).1
  | Op.likeOp u c => (comment_like_toggle db u c).1

/-- One request followed by the clock tick separating requests. -/
def step (db : DB) (op : Op) : DB :=
  let db1 := applyOp db op
  { db1 with clock := db1.clock + 1 }

/-- A whole request sequence. -/
def run (db : DB) (ops : List Op) : DB := ops.foldl step db

/-- The empty store over a fixed user table. -/
def initDB (users : List User) : DB :=
  { users := users, issues := [], timeline := [], upvotes := [],
    bookmarks := [], comments := [], commentLikes := [],
    notifications := [], clock := 0 }

/-- The timeline row the spec calls most recent: last appended row of the
issue (the table is ordered by `created_at`, which is append order). -/
def latestTimelineFor (db : DB) (iid : String) : Option TimelineEntry :=
  (db.timeline.filter (fun e => e.issueId = iid)).getLast?

/-- Value of a digit list, least significant first (proof helper). -/
def valRev : List Char → Nat
  | [] => 0
  | c :: cs => (c.toNat - 48) + 10 * valRev cs

/-- Numeric suffix of an issue, with 0 as an (unused) default. -/
def sfx (i : Issue) : Nat := (numericSuffix i.id).getD 0

/-- Reachable-state invariant of the store: issues are listed in creation
order with strictly increasing clocks and strictly increasing id suffixes
(all parseable), every timeline row points at a stored issue, every
issue's status equals the status of its most recent timeline row, and a
resolved issue carries a `resolved_at` stamp. -/
structure Inv (db : DB) : Prop where
  seqPairwise : db.issues.Pairwise (fun a b => a.createdSeq < b.createdSeq)
  seqLtClock : ∀ i ∈ db.issues, i.createdSeq < db.clock
  sfxPairwise : db.issues.Pairwise (fun a b => sfx a < sfx b)
  sfxSome : ∀ i ∈ db.issues, numericSuffix i.id = some (sfx i)
  timelineRef : ∀ e ∈ db.timeline, ∃ i ∈ db.issues, i.id = e.issueId
  statusMatch : ∀ i ∈ db.issues,
    ∃ e, latestTimelineFor db i.id = some e ∧ e.status = i.status
  resolvedStamp : ∀ i ∈ db.issues,
    i.status = Status.resolved → i.resolvedAt.isSome = true

/-- JSON-like response bodies (for the envelope contract). -/
inductive Json
  | jnull
  | jbool (b : Bool)
  | jnum (n : Nat)
  | jstr (s : String)
  | jarr (xs : List Json)
  | jobj (fields : List (String × Json))

/-- Field lookup on an object body. -/
def jlookup (k : String) : Json → Option Json
  | Json.jobj fields => (fields.find? (fun p => p.1 = k)).map (fun p => p.2)
  | _ => none

/-- The body built by `SuccessResponse.__init__`; `ts` stands for the
formatted `datetime.utcnow()` timestamp. -/
def SuccessResponse_body (message : String) (data : Json) (ts : String) : Json :=
  Json.jobj [("success", Json.jbool true), ("message", Json.jstr message),
    ("data", data), ("meta", Json.jobj [("timestamp", Json.jstr ts)])]

/-- The body built by `ErrorResponse.__init__`. -/
def ErrorResponse_body (message : String) (errors : Json) (errorCode : String)
    (ts : String) : Json :=
  Json.jobj [("success", Json.jbool false), ("message", Json.jstr message),
    ("errors", errors), ("error_code", Json.jstr errorCode),
    ("meta", Json.jobj [("timestamp", Json.jstr ts)])]

/-- The success-envelope shape of the spec: `success=true`, a message
string, a data payload, and a meta object with a timestamp string. -/
def isSuccessEnvelope (j : Json) : Bool :=
  (match jlookup "success" j with
    | some (Json.jbool true) => true
    | _ => false) &&
  (match jlookup "message" j with
    | some (Json.jstr _) => true
    | _ => false) &&
  (jlookup "data" j).isSome &&
  (match jlookup "meta" j with
    | some m =>
      match jlookup "timestamp" m with
      | some (Json.jstr _) => true
      | _ => false
    | none => false)

/-- The error-envelope shape of the spec: `success=false`, a message string,
a per-field errors mapping, an error-code string, and the same meta. -/
def isErrorEnvelope (j : Json) : Bool :=
  (match jlookup "success" j with
    | some (Json.jbool false) => true
    | _ => false) &&
  (match jlookup "message" j with
    | some (Json.jstr _) => true
    | _ => false) &&
  (jlookup "errors" j).isSome &&
  (match jlookup "error_code" j with
    | some (Json.jstr _) => true
    | _ => false) &&
  (match jlookup "meta" j with
    | some m =>
      match jlookup "timestamp" m with
      | some (Json.jstr _) => true
      | _ => false
    | none => false)

/-- The representation produced by `IssueSerializer` of the issue app
(`issue/serializers.py`): the serialized field mapping of one issue. -/
def issueSerializer_data (iid : Nat) (title description category
    categoryDisplay st : String) (likesCount : Nat) (images : List String)
    (createdAt updatedAt : String) (createdBy resolvedBy : Json) : Json :=
  Json.jobj [("id", Json.jnum iid), ("title", Json.jstr title),
    ("description", Json.jstr description), ("category", Json.jstr category),
    ("category_display", Json.jstr categoryDisplay), ("status", Json.jstr st),
    ("likes_count", Json.jnum likesCount),
    ("images", Json.jarr (images.map Json.jstr)),
    ("created_at", Json.jstr createdAt), ("updated_at", Json.jstr updatedAt),
    ("created_by", createdBy), ("resolved_by", resolvedBy)]

/-- `IssueCreateView.post` of the issue app (`issue/views.py`): on a valid
request the body is the bare `IssueSerializer` representation of the
created issue with HTTP 201; on an invalid one, the bare field-error
mapping with HTTP 400. Neither branch wraps the body in an envelope. -/
def issue_create_view_post (valid : Bool) (iid : Nat) (title description
    category categoryDisplay st : String) (likesCount : Nat)
    (images : List String) (createdAt updatedAt : String)
    (createdBy resolvedBy fieldErrors : Json) : Json × Nat :=
  if valid then
    (issueSerializer_data iid title description category categoryDisplay st
      likesCount images createdAt updatedAt createdBy resolvedBy, 201)
  else (fieldErrors, 400)

/-- Concrete staff user (admin), for witnesses. -/
def adminUser : User :=
  { uid := 1, fullName := "Admin", role := "admin", isAuthenticated := true,
    isStaff := true, isSuperuser := false, hasResolverProfile := false,
    profileVerified := false }

/-- Concrete citizen reporter, for witnesses. -/
def reporterUser : User :=
  { uid := 2, fullName := "Rita", role := "citizen", isAuthenticated := true,
    isStaff := false, isSuperuser := false, hasResolverProfile := false,
    profileVerified := false }

/-- Concrete verified resolver, for witnesses. -/
def resolverA : User :=
  { uid := 3, fullName := "Ravi", role := "resolver", isAuthenticated := true,
    isStaff := false, isSuperuser := false, hasResolverProfile := true,
    profileVerified := true }

/-- Second concrete verified resolver, for witnesses. -/
def resolverB : User :=
  { uid := 4, fullName := "Rene", role := "resolver", isAuthenticated := true,
    isStaff := false, isSuperuser := false, hasResolverProfile := true,
    profileVerified := true }

/-- Concrete resolver-role user whose profile is not verified. -/
def unverifiedResolver : User :=
  { uid := 5, fullName := "Uma", role := "resolver", isAuthenticated := true,
    isStaff := false, isSuperuser := false, hasResolverProfile := true,
    profileVerified := false }

/-- Concrete non-resolver-role user carrying an unverified resolver profile. -/
def profiledCitizen : User :=
  { uid := 6, fullName := "Cleo", role := "citizen", isAuthenticated := true,
    isStaff := false, isSuperuser := false, hasResolverProfile := true,
    profileVerified := false }

/-- Concrete stored issue, for witnesses. -/
def sampleIssue : Issue :=
  { id := "TS-1000", title := "Pothole", status := Status.reported,
    reporter := 2, assignedResolver := none, upvoteCount := 0,
    commentCount := 0, shareCount := 0, resolvedAt := none, createdSeq := 0 }

/-- Concrete stored comment, for witnesses. -/
def sampleComment : Comment :=
  { cid := 1, issueId := "TS-1000", author := 2, content := "Please fix",
    parent := none, likeCount := 0 }

/-- Concrete store with one issue and its initial timeline row. -/
def sampleDB : DB :=
  { users := [adminUser, reporterUser, resolverA, resolverB,
      unverifiedResolver, profiledCitizen],
    issues := [sampleIssue],
    timeline := [⟨"TS-1000", Status.reported, "Issue reported", some 2⟩],
    upvotes := [], bookmarks := [], comments := [sampleComment],
    commentLikes := [], notifications := [], clock := 1 }

/-- Concrete issue whose id has no parseable numeric suffix. -/
def oddIssue : Issue :=
  { id := "TSX", title := "odd", status := Status.reported, reporter := 2,
    assignedResolver := none, upvoteCount := 0, commentCount := 0,
    shareCount := 0, resolvedAt := none, createdSeq := 1 }

/-- Concrete store exhibiting the id-generation fallback collision: the most
recently created issue has an unparseable id while `TS-1000` is taken. -/
def fallbackDB : DB :=
  { users := [], issues := [sampleIssue, oddIssue], timeline := [],
    upvotes := [], bookmarks := [], comments := [], commentLikes := [],
    notifications := [], clock := 2 }

theorem digitChar_mem (r : Nat) :
    digitChar r ∈ ['0', '1', '2', '3', '4', '5', '6', '7', '8', '9'] := by
  unfold digitChar
  split <;> simp

theorem digitChar_isDigit (r : Nat) : (digitChar r).isDigit = true := by
  have h := digitChar_mem r
  simp only [List.mem_cons, List.not_mem_nil, or_false] at h
  rcases h with h | h | h | h | h | h | h | h | h | h <;> rw [h] <;> decide

theorem digitChar_val (r : Nat) (h : r < 10) : (digitChar r).toNat - 48 = r := by
  interval_cases r <;> decide

theorem natDigitsRevFuel_zero (fuel : Nat) : natDigitsRevFuel fuel 0 = [] := by
  cases fuel <;> rfl

theorem natDigitsRevFuel_congr :
    ∀ f1 f2 n, n ≤ f1 → n ≤ f2 → natDigitsRevFuel f1 n = natDigitsRevFuel f2 n := by
  intro f1
  induction f1 with
  | zero =>
    intro f2 n h1 _
    have hn : n = 0 := Nat.le_zero.mp h1
    rw [hn, natDigitsRevFuel_zero, natDigitsRevFuel_zero]
  | succ f ih =>
    intro f2 n h1 h2
    match n with
    | 0 => rw [natDigitsRevFuel_zero, natDigitsRevFuel_zero]
    | m + 1 =>
      match f2 with
      | 0 => omega
      | g + 1 =>
        show digitChar ((m + 1) % 10) :: natDigitsRevFuel f ((m + 1) / 10)
            = digitChar ((m + 1) % 10) :: natDigitsRevFuel g ((m + 1) / 10)
        have hdiv : (m + 1) / 10 < m + 1 :=
          Nat.div_lt_self (Nat.succ_pos m) (by decide)
        exact congrArg _ (ih g ((m + 1) / 10) (by omega) (by omega))

theorem natDigitsRev_succ (m : Nat) :
    natDigitsRev (m + 1)
      = digitChar ((m + 1) % 10) :: natDigitsRev ((m + 1) / 10) := by
  have hdiv : (m + 1) / 10 < m + 1 := Nat.div_lt_self (Nat.succ_pos m) (by decide)
  show natDigitsRevFuel (m + 1) (m + 1) = _
  show digitChar ((m + 1) % 10) :: natDigitsRevFuel m ((m + 1) / 10) = _
  rw [natDigitsRevFuel_congr m ((m + 1) / 10) ((m + 1) / 10) (by omega) (Nat.le_refl _)]
  rfl

theorem valRev_natDigitsRev (n : Nat) : valRev (natDigitsRev n) = n := by
  induction n using Nat.strong_induction_on with
  | _ n ih =>
    match n with
    | 0 => rfl
    | m + 1 =>
      have hdiv : (m + 1) / 10 < m + 1 :=
        Nat.div_lt_self (Nat.succ_pos m) (by decide)
      rw [natDigitsRev_succ]
      simp only [valRev]
      rw [ih _ hdiv, digitChar_val _ (Nat.mod_lt _ (by decide))]
      omega

theorem natDigitsRev_digits (n : Nat) :
    ∀ c ∈ natDigitsRev n, c.isDigit = true := by
  induction n using Nat.strong_induction_on with
  | _ n ih =>
    match n with
    | 0 =>
      intro c hc
      exact absurd hc (List.not_mem_nil c)
    | m + 1 =>
      intro c hc
      rw [natDigitsRev_succ] at hc
      have hdiv : (m + 1) / 10 < m + 1 :=
        Nat.div_lt_self (Nat.succ_pos m) (by decide)
      rcases List.mem_cons.mp hc with h | h
      · rw [h]; exact digitChar_isDigit _
      · exact ih _ hdiv c h

theorem natDigits_digits (n : Nat) : (natDigits n).all Char.isDigit = true := by
  unfold natDigits
  by_cases h : n = 0
  · rw [if_pos h]; decide
  · rw [if_neg h, List.all_eq_true]
    intro c hc
    exact natDigitsRev_digits n c (List.mem_reverse.mp hc)

theorem natDigits_ne_nil (n : Nat) : natDigits n ≠ [] := by
  unfold natDigits
  by_cases h : n = 0
  · rw [if_pos h]; simp
  · rw [if_neg h]
    match n, h with
    | m + 1, _ =>
      rw [natDigitsRev_succ]
      simp

theorem foldr_digits (l : List Char) :
    l.foldr (fun x y => 10 * y + (x.toNat - 48)) 0 = valRev l := by
  induction l with
  | nil => rfl
  | cons c cs ih =>
    simp only [List.foldr_cons, valRev]
    rw [ih]
    omega

theorem parseNat_natDigits (n : Nat) : parseNat? (natDigits n) = some n := by
  unfold parseNat?
  rw [if_neg (by simp [List.isEmpty_iff, natDigits_ne_nil n]),
    if_pos (natDigits_digits n)]
  congr 1
  unfold natDigits
  by_cases h : n = 0
  · rw [if_pos h, h]; decide
  · rw [if_neg h, List.foldl_reverse, foldr_digits, valRev_natDigitsRev]

theorem natDigits_no_dash (n : Nat) : '-' ∉ natDigits n := by
  intro hmem
  have h := List.all_eq_true.mp (natDigits_digits n) _ hmem
  exact absurd h (by decide)

theorem splitOnChar_not_mem (sep : Char) (l : List Char) (h : sep ∉ l) :
    splitOnChar sep l = [l] := by
  induction l with
  | nil => rfl
  | cons c cs ih =>
    rw [List.mem_cons, not_or] at h
    unfold splitOnChar
    rw [if_neg (fun hc => h.1 hc.symm), ih h.2]

theorem splitOnChar_ts (ds : List Char) (h : '-' ∉ ds) :
    splitOnChar '-' ('T' :: 'S' :: '-' :: ds) = [['T', 'S'], ds] := by
  have h1 : splitOnChar '-' ('-' :: ds) = [] :: [ds] := by
    unfold splitOnChar
    rw [if_pos rfl, splitOnChar_not_mem _ _ h]
  have h2 : splitOnChar '-' ('S' :: '-' :: ds) = ['S'] :: [ds] := by
    unfold splitOnChar
    rw [if_neg (by decide), h1]
  unfold splitOnChar
  rw [if_neg (by decide), h2]

theorem numericSuffix_format (m : Nat) :
    numericSuffix (formatIssueId m) = some m := by
  unfold numericSuffix formatIssueId
  rw [show (String.mk (['T', 'S', '-'] ++ natDigits m)).data
      = 'T' :: 'S' :: '-' :: natDigits m from rfl]
  rw [splitOnChar_ts _ (natDigits_no_dash m)]
  exact parseNat_natDigits m

theorem findIssue_mem_id {db : DB} {iid : String} {i : Issue}
    (h : findIssue db iid = some i) : i ∈ db.issues ∧ i.id = iid := by
  refine ⟨List.mem_of_find?_eq_some h, ?_⟩
  have h2 := List.find?_some h
  simpa using h2

theorem find?_map_pk (l : List Issue) (iid : String) (G : Issue → Issue)
    (hG : ∀ j, j.id = iid → (G j).id = iid) :
    (l.map (fun j => if j.id = iid then G j else j)).find? (fun j => j.id = iid)
      = (l.find? (fun j => j.id = iid)).map G := by
  induction l with
  | nil => rfl
  | cons j t ih =>
    by_cases h : j.id = iid
    · rw [List.map_cons, if_pos h,
        List.find?_cons_of_pos _ (by simp [hG j h]),
        List.find?_cons_of_pos _ (by simp [h])]
      rfl
    · rw [List.map_cons, if_neg h,
        List.find?_cons_of_neg _ (by simp [h]),
        List.find?_cons_of_neg _ (by simp [h]), ih]

theorem findIssue_save {db : DB} {iid : String} {issue : Issue} (i1 : Issue)
    (hf : findIssue db iid = some issue) (hid : i1.id = iid) :
    findIssue (saveIssue db i1) iid = some i1 := by
  unfold findIssue saveIssue
  unfold findIssue at hf
  rw [hid]
  have h3 := find?_map_pk db.issues iid (fun _ => i1) (fun _ _ => hid)
  rw [hf] at h3
  exact h3

theorem findIssue_update_count {db : DB} {iid : String} :
    findIssue (update_upvote_count db iid) iid
      = (findIssue db iid).map
          (fun j => { j with upvoteCount := liveUpvoteCount db iid }) := by
  unfold findIssue update_upvote_count
  exact find?_map_pk db.issues iid _ (fun _ hj => hj)

theorem find?_map_pk_comment (l : List Comment) (cid : Nat) (G : Comment → Comment)
    (hG : ∀ c, c.cid = cid → (G c).cid = cid) :
    (l.map (fun c => if c.cid = cid then G c else c)).find? (fun c => c.cid = cid)
      = (l.find? (fun c => c.cid = cid)).map G := by
  induction l with
  | nil => rfl
  | cons c t ih =>
    by_cases h : c.cid = cid
    · rw [List.map_cons, if_pos h,
        List.find?_cons_of_pos _ (by simp [hG c h]),
        List.find?_cons_of_pos _ (by simp [h])]
      rfl
    · rw [List.map_cons, if_neg h,
        List.find?_cons_of_neg _ (by simp [h]),
        List.find?_cons_of_neg _ (by simp [h]), ih]

theorem findComment_update_count {db : DB} {cid : Nat} :
    findComment (update_like_count db cid) cid
      = (findComment db cid).map
          (fun c => { c with likeCount := liveLikeCount db cid }) := by
  unfold findComment update_like_count
  exact find?_map_pk_comment db.comments cid _ (fun _ hc => hc)

theorem latestIssueAux_mem :
    ∀ (l : List Issue) (acc : Option Issue) (j : Issue),
      l.foldl (fun acc i =>
        match acc with
        | none => some i
        | some k => if k.createdSeq < i.createdSeq then some i else some k) acc
        = some j
      → acc = some j ∨ j ∈ l := by
  intro l
  induction l with
  | nil => intro acc j h; exact Or.inl h
  | cons i t ih =>
    intro acc j h
    rw [List.foldl_cons] at h
    rcases ih _ j h with h2 | h2
    · cases acc with
      | none =>
        right
        cases Option.some.inj h2
        exact List.mem_cons_self i t
      | some k =>
        dsimp only at h2
        by_cases hk : k.createdSeq < i.createdSeq
        · rw [if_pos hk] at h2
          right
          cases Option.some.inj h2
          exact List.mem_cons_self i t
        · rw [if_neg hk] at h2
          exact Or.inl h2
    · exact Or.inr (List.mem_cons_of_mem i h2)

theorem latestIssueAux_concat (l : List Issue) (x : Issue)
    (hall : ∀ a ∈ l, a.createdSeq < x.createdSeq) :
    latestIssueAux (l ++ [x]) = some x := by
  unfold latestIssueAux
  rw [List.foldl_append, List.foldl_cons, List.foldl_nil]
  cases hacc : l.foldl (fun acc i =>
      match acc with
      | none => some i
      | some k => if k.createdSeq < i.createdSeq then some i else some k) none with
  | none => rfl
  | some j =>
    have hj : j ∈ l := by
      rcases latestIssueAux_mem l none j hacc with h | h
      · exact absurd h (by simp)
      · exact h
    show (if j.createdSeq < x.createdSeq then some x else some j) = some x
    rw [if_pos (hall j hj)]

theorem sfx_lt_genNum {db : DB} (hinv : Inv db) :
    ∀ a ∈ db.issues, sfx a < genNum db := by
  intro a ha
  rcases List.eq_nil_or_concat db.issues with hnil | ⟨l, x, hlx⟩
  · rw [hnil] at ha
    exact absurd ha (List.not_mem_nil a)
  · rw [List.concat_eq_append] at hlx
    have hall : ∀ b ∈ l, b.createdSeq < x.createdSeq := by
      have hp := hinv.seqPairwise
      rw [hlx, List.pairwise_append] at hp
      intro b hb
      exact hp.2.2 b hb x (by simp)
    have hlast : latestIssue db = some x := by
      unfold latestIssue
      rw [hlx]
      exact latestIssueAux_concat l x hall
    have hxmem : x ∈ db.issues := by
      rw [hlx]
      exact List.mem_append_right _ (by simp)
    have hgen : genNum db = sfx x + 1 := by
      unfold genNum
      rw [hlast]
      dsimp only
      rw [hinv.sfxSome x hxmem]
    rw [hgen]
    rw [hlx] at ha
    rcases List.mem_append.mp ha with h | h
    · have hsp := hinv.sfxPairwise
      rw [hlx, List.pairwise_append] at hsp
      have := hsp.2.2 a h x (by simp)
      omega
    · have hax : a = x := by simpa using h
      rw [hax]
      omega

theorem generate_fresh {db : DB} (hinv : Inv db) :
    ∀ a ∈ db.issues, a.id ≠ generate_issue_id db := by
  intro a ha heq
  have h1 : numericSuffix a.id = some (sfx a) := hinv.sfxSome a ha
  rw [heq] at h1
  unfold generate_issue_id at h1
  rw [numericSuffix_format] at h1
  have h2 := Option.some.inj h1
  have h3 := sfx_lt_genNum hinv a ha
  omega

theorem inv_find_unique {db : DB} (hinv : Inv db) {iid : String} {issue : Issue}
    (hf : findIssue db iid = some issue) :
    ∀ j ∈ db.issues, j.id = iid → j = issue := by
  intro j hj hjid
  obtain ⟨hmem, hid⟩ := findIssue_mem_id hf
  have h1 : numericSuffix j.id = some (sfx j) := hinv.sfxSome j hj
  have h2 : numericSuffix issue.id = some (sfx issue) := hinv.sfxSome issue hmem
  rw [hjid] at h1
  rw [hid] at h2
  rw [h1] at h2
  have hsfx : sfx j = sfx issue := Option.some.inj h2
  have hnd : (db.issues.map sfx).Nodup :=
    List.pairwise_map.mpr (hinv.sfxPairwise.imp (fun h => Nat.ne_of_lt h))
  exact List.inj_on_of_nodup_map hnd hj hmem hsfx

theorem inv_tick {db : DB} (hinv : Inv db) : Inv { db with clock := db.clock + 1 } := by
  refine ⟨hinv.seqPairwise, ?_, hinv.sfxPairwise, hinv.sfxSome, hinv.timelineRef,
    ?_, hinv.resolvedStamp⟩
  · intro i hi
    exact Nat.lt_succ_of_lt (hinv.seqLtClock i hi)
  · intro i hi
    obtain ⟨e, he, hst⟩ := hinv.statusMatch i hi
    exact ⟨e, he, hst⟩

theorem inv_save_log {db : DB} {iid : String} {issue : Issue} (hinv : Inv db)
    (hf : findIssue db iid = some issue) (i1 : Issue) (est : Status)
    (note : String) (actor : Option Nat) (hid : i1.id = iid)
    (hseq : i1.createdSeq = issue.createdSeq) (hst : i1.status = est)
    (hres : i1.status = Status.resolved → i1.resolvedAt.isSome = true) :
    Inv { db with
      issues := db.issues.map (fun j => if j.id = i1.id then i1 else j),
      timeline := db.timeline ++ [⟨iid, est, note, actor⟩],
      clock := db.clock + 1 } := by
  obtain ⟨hmem, hiid⟩ := findIssue_mem_id hf
  have hpt : ∀ j ∈ db.issues,
      (if j.id = i1.id then i1 else j).id = j.id
      ∧ (if j.id = i1.id then i1 else j).createdSeq = j.createdSeq := by
    intro j hj
    by_cases h : j.id = i1.id
    · have hj_eq : j = issue := inv_find_unique hinv hf j hj (h.trans hid)
      rw [if_pos h]
      exact ⟨h.symm, by rw [hseq, hj_eq]⟩
    · rw [if_neg h]
      exact ⟨rfl, rfl⟩
  have hf_issue : (if issue.id = i1.id then i1 else issue) = i1 :=
    if_pos (by rw [hiid, hid])
  refine ⟨?_, ?_, ?_, ?_, ?_, ?_, ?_⟩
  · rw [List.pairwise_map]
    refine List.Pairwise.imp_of_mem ?_ hinv.seqPairwise
    intro a b ha hb hab
    rw [(hpt a ha).2, (hpt b hb).2]
    exact hab
  · intro i hi
    obtain ⟨j, hj, rfl⟩ := List.mem_map.mp hi
    rw [(hpt j hj).2]
    exact Nat.lt_succ_of_lt (hinv.seqLtClock j hj)
  · rw [List.pairwise_map]
    refine List.Pairwise.imp_of_mem ?_ hinv.sfxPairwise
    intro a b ha hb hab
    have ea : sfx (if a.id = i1.id then i1 else a) = sfx a := by
      unfold sfx
      rw [(hpt a ha).1]
    have eb : sfx (if b.id = i1.id then i1 else b) = sfx b := by
      unfold sfx
      rw [(hpt b hb).1]
    rw [ea, eb]
    exact hab
  · intro i hi
    obtain ⟨j, hj, rfl⟩ := List.mem_map.mp hi
    unfold sfx
    rw [(hpt j hj).1]
    exact hinv.sfxSome j hj
  · intro e he
    rcases List.mem_append.mp he with h | h
    · obtain ⟨i, hi, hieq⟩ := hinv.timelineRef e h
      exact ⟨if i.id = i1.id then i1 else i, List.mem_map_of_mem _ hi,
        by rw [(hpt i hi).1, hieq]⟩
    · have he2 : e = ⟨iid, est, note, actor⟩ := by simpa using h
      have hmem1 : i1 ∈ db.issues.map (fun j => if j.id = i1.id then i1 else j) := by
        have hmm : (if issue.id = i1.id then i1 else issue)
            ∈ List.map (fun j => if j.id = i1.id then i1 else j) db.issues :=
          List.mem_map_of_mem (fun j => if j.id = i1.id then i1 else j) hmem
        rwa [hf_issue] at hmm
      exact ⟨i1, hmem1, by rw [hid, he2]⟩
  · intro i hi
    obtain ⟨j, hj, rfl⟩ := List.mem_map.mp hi
    by_cases h : j.id = i1.id
    · have hj_eq : j = issue := inv_find_unique hinv hf j hj (h.trans hid)
      rw [if_pos h]
      refine ⟨⟨iid, est, note, actor⟩, ?_, hst.symm⟩
      unfold latestTimelineFor
      dsimp only
      rw [List.filter_append]
      have hone : List.filter (fun e => decide (e.issueId = i1.id))
          [(⟨iid, est, note, actor⟩ : TimelineEntry)]
          = [(⟨iid, est, note, actor⟩ : TimelineEntry)] := by
        simp [hid]
      rw [hone, List.getLast?_concat]
    · rw [if_neg h]
      obtain ⟨e, he, hest⟩ := hinv.statusMatch j hj
      refine ⟨e, ?_, hest⟩
      unfold latestTimelineFor at he ⊢
      dsimp only
      rw [List.filter_append]
      have hne : iid ≠ j.id := fun hh => h ((hid.trans hh).symm ▸ rfl)
      have hnil : List.filter (fun e => decide (e.issueId = j.id))
          [(⟨iid, est, note, actor⟩ : TimelineEntry)] = [] := by
        simp [hne]
      rw [hnil, List.append_nil]
      exact he
  · intro i hi hires
    obtain ⟨j, hj, rfl⟩ := List.mem_map.mp hi
    by_cases h : j.id = i1.id
    · rw [if_pos h] at hires ⊢
      exact hres hires
    · rw [if_neg h] at hires ⊢
      exact hinv.resolvedStamp j hj hires

theorem inv_create {db : DB} (hinv : Inv db) (r : User) (t : String) :
    Inv { db with
      issues := db.issues ++
        [{ id := generate_issue_id db, title := t, status := Status.reported,
           reporter := r.uid, assignedResolver := none, upvoteCount := 0,
           commentCount := 0, shareCount := 0, resolvedAt := none,
           createdSeq := db.clock }],
      timeline := db.timeline ++
        [⟨generate_issue_id db, Status.reported, "Issue reported", some r.uid⟩],
      clock := db.clock + 1 } := by
  have hsfxnew : sfx { id := generate_issue_id db, title := t,
                       status := Status.reported, reporter := r.uid,
                       assignedResolver := none, upvoteCount := 0,
                       commentCount := 0, shareCount := 0, resolvedAt := none,
                       createdSeq := db.clock } = genNum db := by
    show (numericSuffix (generate_issue_id db)).getD 0 = genNum db
    unfold generate_issue_id
    rw [numericSuffix_format]
    rfl
  refine ⟨?_, ?_, ?_, ?_, ?_, ?_, ?_⟩
  · rw [List.pairwise_append]
    refine ⟨hinv.seqPairwise, by simp, ?_⟩
    intro a ha b hb
    have hb2 := List.mem_singleton.mp hb
    rw [hb2]
    exact hinv.seqLtClock a ha
  · intro i hi
    rcases List.mem_append.mp hi with h | h
    · exact Nat.lt_succ_of_lt (hinv.seqLtClock i h)
    · rw [List.mem_singleton.mp h]
      exact Nat.lt_succ_self db.clock
  · rw [List.pairwise_append]
    refine ⟨hinv.sfxPairwise, by simp, ?_⟩
    intro a ha b hb
    have hb2 := List.mem_singleton.mp hb
    rw [hb2, hsfxnew]
    exact sfx_lt_genNum hinv a ha
  · intro i hi
    rcases List.mem_append.mp hi with h | h
    · exact hinv.sfxSome i h
    · rw [List.mem_singleton.mp h, hsfxnew]
      show numericSuffix (generate_issue_id db) = some (genNum db)
      unfold generate_issue_id
      exact numericSuffix_format (genNum db)
  · intro e he
    rcases List.mem_append.mp he with h | h
    · obtain ⟨i, hi, hieq⟩ := hinv.timelineRef e h
      exact ⟨i, List.mem_append_left _ hi, hieq⟩
    · refine ⟨_, List.mem_append_right _ (List.mem_singleton_self _), ?_⟩
      rw [List.mem_singleton.mp h]
  · intro i hi
    have hfresh := generate_fresh hinv
    rcases List.mem_append.mp hi with h | h
    · obtain ⟨e, he, hest⟩ := hinv.statusMatch i h
      refine ⟨e, ?_, hest⟩
      unfold latestTimelineFor at he ⊢
      dsimp only
      rw [List.filter_append]
      have hnil : List.filter (fun e => decide (e.issueId = i.id))
          [(⟨generate_issue_id db, Status.reported, "Issue reported",
            some r.uid⟩ : TimelineEntry)] = [] := by
        simp
        intro hcon
        exact hfresh i h hcon.symm
      rw [hnil, List.append_nil]
      exact he
    · rw [List.mem_singleton.mp h]
      refine ⟨⟨generate_issue_id db, Status.reported, "Issue reported",
        some r.uid⟩, ?_, rfl⟩
      unfold latestTimelineFor
      dsimp only
      rw [List.filter_append]
      have hnil : List.filter
          (fun e => decide (e.issueId = generate_issue_id db)) db.timeline = [] := by
        rw [List.filter_eq_nil_iff]
        intro e he
        simp
        obtain ⟨j, hj, hjid⟩ := hinv.timelineRef e he
        rw [← hjid]
        exact hfresh j hj
      rw [hnil, List.nil_append]
      simp
  · intro i hi hires
    rcases List.mem_append.mp hi with h | h
    · exact hinv.resolvedStamp i h hires
    · rw [List.mem_singleton.mp h] at hires
      simp at hires

theorem inv_misc {db : DB} (hinv : Inv db) (G : Issue → Issue)
    (hGid : ∀ j, (G j).id = j.id) (hGseq : ∀ j, (G j).createdSeq = j.createdSeq)
    (hGst : ∀ j, (G j).status = j.status)
    (hGres : ∀ j, (G j).resolvedAt = j.resolvedAt)
    (ups bms : List (Nat × String)) (cms : List Comment)
    (cls : List (Nat × Nat)) (nfs : List Notification) :
    Inv { db with
      issues := db.issues.map G, upvotes := ups, bookmarks := bms,
      comments := cms, commentLikes := cls, notifications := nfs,
      clock := db.clock + 1 } := by
  refine ⟨?_, ?_, ?_, ?_, ?_, ?_, ?_⟩
  · rw [List.pairwise_map]
    refine List.Pairwise.imp_of_mem ?_ hinv.seqPairwise
    intro a b _ _ hab
    rw [hGseq a, hGseq b]
    exact hab
  · intro i hi
    obtain ⟨j, hj, rfl⟩ := List.mem_map.mp hi
    rw [hGseq j]
    exact Nat.lt_succ_of_lt (hinv.seqLtClock j hj)
  · rw [List.pairwise_map]
    refine List.Pairwise.imp_of_mem ?_ hinv.sfxPairwise
    intro a b _ _ hab
    have ea : sfx (G a) = sfx a := by unfold sfx; rw [hGid a]
    have eb : sfx (G b) = sfx b := by unfold sfx; rw [hGid b]
    rw [ea, eb]
    exact hab
  · intro i hi
    obtain ⟨j, hj, rfl⟩ := List.mem_map.mp hi
    unfold sfx
    rw [hGid j]
    exact hinv.sfxSome j hj
  · intro e he
    obtain ⟨i, hi, hieq⟩ := hinv.timelineRef e he
    exact ⟨G i, List.mem_map_of_mem _ hi, by rw [hGid i, hieq]⟩
  · intro i hi
    obtain ⟨j, hj, rfl⟩ := List.mem_map.mp hi
    obtain ⟨e, he, hest⟩ := hinv.statusMatch j hj
    refine ⟨e, ?_, by rw [hest, hGst j]⟩
    unfold latestTimelineFor at he ⊢
    dsimp only
    rw [hGid j]
    exact he
  · intro i hi hires
    obtain ⟨j, hj, rfl⟩ := List.mem_map.mp hi
    rw [hGst j] at hires
    rw [hGres j]
    exact hinv.resolvedStamp j hj hires

theorem inv_misc_plain {db : DB} (hinv : Inv db) (ups bms : List (Nat × String))
    (cms : List Comment) (cls : List (Nat × Nat)) (nfs : List Notification) :
    Inv { db with
      upvotes := ups, bookmarks := bms, comments := cms, commentLikes := cls,
      notifications := nfs, clock := db.clock + 1 } := by
  refine ⟨hinv.seqPairwise, ?_, hinv.sfxPairwise, hinv.sfxSome,
    hinv.timelineRef, ?_, hinv.resolvedStamp⟩
  · intro i hi
    exact Nat.lt_succ_of_lt (hinv.seqLtClock i hi)
  · intro i hi
    obtain ⟨e, he, hst⟩ := hinv.statusMatch i hi
    exact ⟨e, he, hst⟩

theorem inv_step {db : DB} (hinv : Inv db) (op : Op) : Inv (step db op) := by
  cases op with
  | createOp r t =>
    unfold step applyOp create_issue
    dsimp only
    by_cases h1 : r.isAuthenticated
    · rw [if_neg (by simp [h1])]
      exact inv_create hinv r t
    · rw [if_pos h1]
      exact inv_tick hinv
  | statusOp a iid s note =>
    unfold step applyOp update_status
    dsimp only
    by_cases hg : (a.isAuthenticated && isResolverOrAdmin a) = true
    · rw [if_neg (by simp [hg])]
      cases hf : findIssue db iid with
      | none => exact inv_tick hinv
      | some issue =>
        cases hp : parseStatus s with
        | none => exact inv_tick hinv
        | some st =>
          exact inv_save_log hinv hf
            { issue with
              status := st,
              resolvedAt :=
                if st = Status.resolved then some db.clock else issue.resolvedAt }
            st note (some a.uid) (findIssue_mem_id hf).2 rfl rfl
            (fun hr => by
              show (if st = Status.resolved then some db.clock
                else issue.resolvedAt).isSome = true
              rw [if_pos hr]
              rfl)
    · rw [if_pos hg]
      exact inv_tick hinv
  | acceptOp a iid =>
    unfold step applyOp accept
    dsimp only
    by_cases h1 : a.isAuthenticated
    · rw [if_neg (by simp [h1])]
      by_cases h2 : (a.role != "resolver" && !a.isStaff) = true
      · rw [if_pos h2]
        exact inv_tick hinv
      · rw [if_neg h2]
        cases hf : findIssue db iid with
        | none => exact inv_tick hinv
        | some issue =>
          dsimp only
          by_cases h3 : issue.assignedResolver.isSome = true
          · rw [if_pos h3]
            exact inv_tick hinv
          · rw [if_neg h3]
            exact inv_save_log hinv hf
              { issue with
                assignedResolver := some a.uid,
                status := Status.acknowledged }
              Status.acknowledged ("Issue accepted by " ++ a.fullName)
              (some a.uid) (findIssue_mem_id hf).2 rfl rfl
              (fun hr => by simp at hr)
    · rw [if_pos h1]
      exact inv_tick hinv
  | assignOp a iid rid =>
    unfold step applyOp assign
    dsimp only
    by_cases h1 : a.isStaff
    · rw [if_neg (by simp [h1])]
      cases hf : findIssue db iid with
      | none => exact inv_tick hinv
      | some issue =>
        cases hu : findUser db rid with
        | none => exact inv_tick hinv
        | some resolver =>
          exact inv_save_log hinv hf
            { issue with assignedResolver := some resolver.uid }
            issue.status ("Assigned to " ++ resolver.fullName) (some a.uid)
            (findIssue_mem_id hf).2 rfl rfl
            (fun hr => hinv.resolvedStamp issue (findIssue_mem_id hf).1 hr)
    · rw [if_pos h1]
      exact inv_tick hinv
  | upvoteOp u iid =>
    unfold step applyOp upvote_toggle
    dsimp only
    by_cases h1 : u.isAuthenticated
    · rw [if_neg (by simp [h1])]
      cases hf : findIssue db iid with
      | none => exact inv_tick hinv
      | some issue =>
        dsimp only
        by_cases h2 : (u.uid, iid) ∈ db.upvotes
        · rw [if_pos h2]
          exact inv_misc hinv _
            (fun j => by by_cases hj : j.id = iid <;> simp [hj])
            (fun j => by by_cases hj : j.id = iid <;> simp [hj])
            (fun j => by by_cases hj : j.id = iid <;> simp [hj])
            (fun j => by by_cases hj : j.id = iid <;> simp [hj])
            (db.upvotes.erase (u.uid, iid)) db.bookmarks db.comments
            db.commentLikes db.notifications
        · rw [if_neg h2]
          exact inv_misc hinv _
            (fun j => by by_cases hj : j.id = iid <;> simp [hj])
            (fun j => by by_cases hj : j.id = iid <;> simp [hj])
            (fun j => by by_cases hj : j.id = iid <;> simp [hj])
            (fun j => by by_cases hj : j.id = iid <;> simp [hj])
            (db.upvotes ++ [(u.uid, iid)]) db.bookmarks db.comments
            db.commentLikes db.notifications
    · rw [if_pos h1]
      exact inv_tick hinv
  | likeOp u cid =>
    unfold step applyOp comment_like_toggle
    dsimp only
    by_cases h1 : u.isAuthenticated
    · rw [if_neg (by simp [h1])]
      cases hf : findComment db cid with
      | none => exact inv_tick hinv
      | some c =>
        dsimp only
        by_cases h2 : (u.uid, cid) ∈ db.commentLikes
        · rw [if_pos h2]
          exact inv_misc_plain hinv db.upvotes db.bookmarks _ _ db.notifications
        · rw [if_neg h2]
          exact inv_misc_plain hinv db.upvotes db.bookmarks _ _ db.notifications
    · rw [if_pos h1]
      exact inv_tick hinv

theorem inv_run {db : DB} (hinv : Inv db) (ops : List Op) : Inv (run db ops) := by
  induction ops generalizing db with
  | nil => exact hinv
  | cons op t ih => exact ih (inv_step hinv op)

theorem inv_init (users : List User) : Inv (initDB users) := by
  refine ⟨?_, ?_, ?_, ?_, ?_, ?_, ?_⟩ <;> simp [initDB]

/-- C1 counterexample: an accepted status transition (HTTP 200, performed by
a staff user, new status `resolved`) creates zero notification rows — the
claim that a status-changed row (and a resolved row) addressed to the
reporter is created on every accepted transition is false on this code. -/
theorem C1_counterexample :
    (update_status sampleDB adminUser "TS-1000" "resolved" "done").2 = Resp.ok 200
    ∧ ((update_status sampleDB adminUser "TS-1000" "resolved" "done").1).notifications
        = [] := by
  constructor <;> rfl

/-- C1 (amended): the PATCH status endpoint never invokes the notification
dispatcher — the notifications table is unchanged by every call of
`update_status`; the factory functions
`create_status_update_notification` / `create_resolution_notification`
exist and, when called directly, each insert exactly one row addressed to
the issue's reporter, but the endpoint does not call them. -/
theorem C1_amended :
    (∀ (db : DB) (a : User) (iid s note : String),
      ((update_status db a iid s note).1).notifications = db.notifications)
    ∧ (∀ (db : DB) (issue : Issue) (actor : Option Nat),
        ((create_status_update_notification db issue actor).2).user = issue.reporter
        ∧ ((create_status_update_notification db issue actor).1).notifications
            = db.notifications ++ [(create_status_update_notification db issue actor).2])
    ∧ (∀ (db : DB) (issue : Issue) (actor : Option Nat),
        ((create_resolution_notification db issue actor).2).user = issue.reporter
        ∧ ((create_resolution_notification db issue actor).1).notifications
            = db.notifications ++ [(create_resolution_notification db issue actor).2]) := by
  refine ⟨?_, ?_, ?_⟩
  · intro db a iid s note
    unfold update_status
    by_cases hg : (a.isAuthenticated && isResolverOrAdmin a) = true
    · rw [if_neg (by simp [hg])]
      cases hf : findIssue db iid with
      | none => rfl
      | some issue =>
        cases hp : parseStatus s with
        | none => rfl
        | some st => rfl
    · rw [if_pos hg]
  · intro db issue actor
    exact ⟨rfl, rfl⟩
  · intro db issue actor
    exact ⟨rfl, rfl⟩

/-- C8: the dispatcher's self-action suppression — a comment whose author is
the issue's reporter, and an upvote whose user is the issue's reporter,
produce no notification row and return `None`. -/
theorem C8_theorem :
    (∀ (db : DB) (c : Comment) (issue : Issue) (authorName : String),
      c.author = issue.reporter →
      create_comment_notification db c issue authorName = (db, none))
    ∧ (∀ (db : DB) (upvoteUser : Nat) (issue : Issue),
      upvoteUser = issue.reporter →
      create_upvote_notification db upvoteUser issue = (db, none)) := by
  constructor
  · intro db c issue authorName h
    unfold create_comment_notification
    rw [if_pos h]
  · intro db upvoteUser issue h
    unfold create_upvote_notification
    rw [if_pos h]

/-- C8 witness: the reporter of `sampleIssue` (user 2) commenting on and
upvoting their own issue yields no notification row. -/
theorem C8_witness :
    create_comment_notification sampleDB sampleComment sampleIssue "Rita"
      = (sampleDB, none)
    ∧ create_upvote_notification sampleDB 2 sampleIssue = (sampleDB, none) :=
  ⟨C8_theorem.1 sampleDB sampleComment sampleIssue "Rita" rfl,
   C8_theorem.2 sampleDB 2 sampleIssue rfl⟩

/-- C9 counterexample: `IssueCreateView.post` of the issue app answers a
valid create request with the bare serializer representation — a body that
is neither the success envelope nor the error envelope, so not every
endpoint returns one of the two envelope shapes. -/
theorem C9_counterexample :
    isSuccessEnvelope (issue_create_view_post true 7 "Pothole" "Bad road"
      "road" "Road" "open" 0 [] "2024-01-01" "2024-01-01" Json.jnull Json.jnull
      (Json.jobj [])).1 = false
    ∧ isErrorEnvelope (issue_create_view_post true 7 "Pothole" "Bad road"
      "road" "Road" "open" 0 [] "2024-01-01" "2024-01-01" Json.jnull Json.jnull
      (Json.jobj [])).1 = false := by
  constructor <;> rfl

/-- C9 (amended): bodies built by `SuccessResponse` / `ErrorResponse` do have
the two envelope shapes of the spec, but the issue app's create endpoint
returns the bare `IssueSerializer` mapping, which carries no `success` and
no `meta` key at all. -/
theorem C9_amended :
    (∀ (m : String) (d : Json) (ts : String),
      isSuccessEnvelope (SuccessResponse_body m d ts) = true)
    ∧ (∀ (m : String) (e : Json) (c ts : String),
      isErrorEnvelope (ErrorResponse_body m e c ts) = true)
    ∧ (∀ (iid : Nat) (title description category categoryDisplay st : String)
        (likesCount : Nat) (images : List String) (createdAt updatedAt : String)
        (createdBy resolvedBy : Json),
        jlookup "success" (issueSerializer_data iid title description category
          categoryDisplay st likesCount images createdAt updatedAt createdBy
          resolvedBy) = none
        ∧ jlookup "meta" (issueSerializer_data iid title description category
          categoryDisplay st likesCount images createdAt updatedAt createdBy
          resolvedBy) = none) := by
  refine ⟨?_, ?_, ?_⟩
  · intro m d ts
    rfl
  · intro m e c ts
    rfl
  · intro iid title description category categoryDisplay st likesCount images
      createdAt updatedAt createdBy resolvedBy
    exact ⟨rfl, rfl⟩

/-- C10: the id generated by `Issue.save` for an unset id is `TS-` followed
by the successor of the numeric suffix of the most recently created
issue's id; with no issue, or an unparseable suffix, the number is 1000
(so the generated id can collide with an existing one, as `fallbackDB`
shows); a set id is never overwritten. -/
theorem C10_theorem :
    (∀ (db : DB) (i : Issue), i.id ≠ "" → issue_save_id db i = i.id)
    ∧ (∀ db : DB, db.issues = [] → generate_issue_id db = "TS-1000")
    ∧ (∀ (db : DB) (l : Issue) (n : Nat),
        latestIssue db = some l → numericSuffix l.id = some n →
        numericSuffix (generate_issue_id db) = some (n + 1))
    ∧ (∀ (db : DB) (l : Issue),
        latestIssue db = some l → numericSuffix l.id = none →
        generate_issue_id db = "TS-1000")
    ∧ ((∃ i ∈ fallbackDB.issues, i.id = "TS-1000")
        ∧ generate_issue_id fallbackDB = "TS-1000") := by
  refine ⟨?_, ?_, ?_, ?_, ?_⟩
  · intro db i h
    unfold issue_save_id
    rw [if_neg h]
  · intro db h
    unfold generate_issue_id genNum latestIssue latestIssueAux
    rw [h]
    decide
  · intro db l n h1 h2
    unfold generate_issue_id genNum
    rw [h1]
    dsimp only
    rw [h2]
    exact numericSuffix_format (n + 1)
  · intro db l h1 h2
    unfold generate_issue_id genNum
    rw [h1]
    dsimp only
    rw [h2]
    decide
  · exact ⟨⟨sampleIssue, by decide, rfl⟩, by decide⟩

/-- C10 witness: concrete instances — a set id survives save, the empty
store generates `TS-1000`, and the successor rule applied to `sampleDB`
(latest id `TS-1000`) generates suffix 1001. -/
theorem C10_witness :
    issue_save_id sampleDB sampleIssue = sampleIssue.id
    ∧ generate_issue_id (initDB []) = "TS-1000"
    ∧ numericSuffix (generate_issue_id sampleDB) = some 1001
    ∧ generate_issue_id fallbackDB = "TS-1000" :=
  ⟨C10_theorem.1 sampleDB sampleIssue (by decide),
   C10_theorem.2.1 (initDB []) rfl,
   C10_theorem.2.2.1 sampleDB sampleIssue 1000 rfl (by decide),
   C10_theorem.2.2.2.1 fallbackDB oddIssue (by decide) (by decide)⟩

/-- C4 counterexample: a user with role `resolver` whose resolver profile
has `is_verified = false` passes `IsResolverOrAdmin` — the role check
short-circuits before the verification check — and their PATCH status call
succeeds and mutates state (a timeline row is appended), refuting the
claim that such users are denied with no mutation. -/
theorem C4_counterexample :
    isResolverOrAdmin unverifiedResolver = true
    ∧ (update_status sampleDB unverifiedResolver "TS-1000" "acknowledged" "").2
        = Resp.ok 200
    ∧ ((update_status sampleDB unverifiedResolver "TS-1000" "acknowledged" "").1).timeline
        ≠ sampleDB.timeline := by
  refine ⟨rfl, rfl, ?_⟩
  decide

/-- C4 (amended): `IsResolverOrAdmin` grants any authenticated user whose
role string is `resolver`, regardless of profile verification; the
`is_verified` gate applies only to authenticated, non-staff,
non-superuser users without the resolver role who carry a resolver
profile — those are denied by the PATCH status endpoint with a 403 and no
state change. -/
theorem C4_amended :
    (∀ u : User, u.isAuthenticated = true → u.role = "resolver" →
      isResolverOrAdmin u = true)
    ∧ (∀ (u : User) (db : DB) (iid s note : String),
        u.isAuthenticated = true → u.isStaff = false → u.isSuperuser = false →
        u.role ≠ "resolver" → u.hasResolverProfile = true →
        u.profileVerified = false →
        isResolverOrAdmin u = false
        ∧ update_status db u iid s note = (db, Resp.err "PERMISSION_DENIED" 403)) := by
  constructor
  · intro u h1 h2
    unfold isResolverOrAdmin
    rw [if_neg (by simp [h1])]
    by_cases hs : (u.isStaff || u.isSuperuser) = true
    · rw [if_pos hs]
    · rw [if_neg hs, if_pos (by simp [h2])]
  · intro u db iid s note h1 h2 h3 h4 h5 h6
    have hperm : isResolverOrAdmin u = false := by
      unfold isResolverOrAdmin
      rw [if_neg (by simp [h1]), if_neg (by simp [h2, h3]),
        if_neg (by simp [h4]), if_pos (by simp [h5])]
      exact h6
    refine ⟨hperm, ?_⟩
    unfold update_status
    rw [if_pos (by simp [hperm])]

/-- C4 (amended) witness: the unverified resolver-role user passes the
permission check, while the profiled citizen (no resolver role, unverified
profile) is rejected with 403 and an unchanged store. -/
theorem C4_amended_witness :
    isResolverOrAdmin unverifiedResolver = true
    ∧ (isResolverOrAdmin profiledCitizen = false
      ∧ update_status sampleDB profiledCitizen "TS-1000" "resolved" ""
          = (sampleDB, Resp.err "PERMISSION_DENIED" 403)) :=
  ⟨C4_amended.1 unverifiedResolver rfl rfl,
   C4_amended.2 profiledCitizen sampleDB "TS-1000" "resolved" "" rfl rfl rfl
     (by decide) rfl rfl⟩

/-- C7: the status serializer accepts exactly the four enum values — any
other requested status makes the PATCH status endpoint fail with a
validation error while the store (status, resolved_at, timeline and all
other tables) is returned unchanged. -/
theorem C7_theorem :
    (∀ s : String, parseStatus s = none ↔
      s ∉ ["reported", "acknowledged", "in-progress", "resolved"])
    ∧ (∀ (db : DB) (a : User) (iid s note : String) (issue : Issue),
      (a.isAuthenticated && isResolverOrAdmin a) = true →
      findIssue db iid = some issue →
      parseStatus s = none →
      update_status db a iid s note = (db, Resp.err "VALIDATION_ERROR" 400)) := by
  constructor
  · intro s
    unfold parseStatus
    split_ifs with h1 h2 h3 h4 <;> simp_all
  · intro db a iid s note issue hg hf hp
    unfold update_status
    rw [if_neg (by simp [hg]), hf]
    dsimp only
    rw [hp]

/-- C7 witness: the string `bogus` is rejected — it is outside the enum, and
the PATCH status call on `sampleDB` returns the validation error with the
store unchanged. -/
theorem C7_witness :
    parseStatus "bogus" = none
    ∧ update_status sampleDB adminUser "TS-1000" "bogus" ""
        = (sampleDB, Resp.err "VALIDATION_ERROR" 400) :=
  ⟨(C7_theorem.1 "bogus").mpr (by decide),
   C7_theorem.2 sampleDB adminUser "TS-1000" "bogus" "" sampleIssue rfl rfl
     ((C7_theorem.1 "bogus").mpr (by decide))⟩

/-- C2 counterexample: create an issue, resolve it, then move it back to
`reported` — the final status is not `resolved` yet `resolved_at` is still
set (the endpoint never clears it), refuting the spec's if-and-only-if
invariant and its claim that leaving `resolved` leaves `resolved_at`
null. -/
theorem C2_counterexample :
    ((findIssue (run (initDB [adminUser, reporterUser])
        [Op.createOp reporterUser "Pothole",
         Op.statusOp adminUser "TS-1000" "resolved" "",
         Op.statusOp adminUser "TS-1000" "reported" ""]) "TS-1000").map
      (fun i => (i.status, i.resolvedAt))) = some (Status.reported, some 1) := by
  rfl

/-- C2 (amended): after any request sequence from the empty store, an issue
in status `resolved` always has `resolved_at` set (one direction of the
spec's iff holds); but a transition out of `resolved` keeps the old
`resolved_at` value unchanged rather than clearing it. -/
theorem C2_amended :
    (∀ (users : List User) (ops : List Op),
      ∀ i ∈ (run (initDB users) ops).issues,
        i.status = Status.resolved → i.resolvedAt.isSome = true)
    ∧ (∀ (db : DB) (a : User) (iid s note : String) (issue : Issue) (st : Status),
        findIssue db iid = some issue →
        parseStatus s = some st → st ≠ Status.resolved →
        (a.isAuthenticated && isResolverOrAdmin a) = true →
        findIssue ((update_status db a iid s note).1) iid
          = some { issue with status := st }) := by
  constructor
  · intro users ops i hi hres
    exact (inv_run (inv_init users) ops).resolvedStamp i hi hres
  · intro db a iid s note issue st hf hp hne hg
    unfold update_status
    rw [if_neg (by simp [hg]), hf]
    dsimp only
    rw [hp]
    dsimp only
    have h1 := findIssue_save
      { issue with
        status := st,
        resolvedAt :=
          if st = Status.resolved then some db.clock else issue.resolvedAt }
      hf ((findIssue_mem_id hf).2)
    exact h1.trans (by rw [if_neg hne])

/-- C2 (amended) witness: the resolved issue of a concrete run carries a
`resolved_at` stamp, and a concrete non-resolving transition keeps the
stored issue's `resolved_at` (here `none`) unchanged. -/
theorem C2_amended_witness :
    ({ id := "TS-1000", title := "Pothole", status := Status.resolved,
       reporter := 2, assignedResolver := none, upvoteCount := 0,
       commentCount := 0, shareCount := 0, resolvedAt := some 1,
       createdSeq := 0 } : Issue).resolvedAt.isSome = true
    ∧ findIssue ((update_status sampleDB adminUser "TS-1000" "acknowledged" "").1)
        "TS-1000" = some { sampleIssue with status := Status.acknowledged } :=
  ⟨C2_amended.1 [adminUser, reporterUser]
      [Op.createOp reporterUser "Pothole",
       Op.statusOp adminUser "TS-1000" "resolved" ""]
      { id := "TS-1000", title := "Pothole", status := Status.resolved,
        reporter := 2, assignedResolver := none, upvoteCount := 0,
        commentCount := 0, shareCount := 0, resolvedAt := some 1,
        createdSeq := 0 }
      (by decide) rfl,
   C2_amended.2 sampleDB adminUser "TS-1000" "acknowledged" "" sampleIssue
     Status.acknowledged rfl rfl (by decide) rfl⟩

/-- C3: every accepted PATCH status call appends exactly one timeline row,
carrying the validated new status, the note and the acting user; and
after any request sequence from the empty store, every issue's status
field equals the status of its most recent timeline row. -/
theorem C3_theorem :
    (∀ (db : DB) (a : User) (iid s note : String),
      (update_status db a iid s note).2 = Resp.ok 200 →
      ∃ st, parseStatus s = some st
        ∧ ((update_status db a iid s note).1).timeline
            = db.timeline ++ [⟨iid, st, note, some a.uid⟩])
    ∧ (∀ (users : List User) (ops : List Op),
        ∀ i ∈ (run (initDB users) ops).issues,
          ∃ e, latestTimelineFor (run (initDB users) ops) i.id = some e
            ∧ e.status = i.status) := by
  constructor
  · intro db a iid s note hok
    unfold update_status at hok ⊢
    by_cases hg : (a.isAuthenticated && isResolverOrAdmin a) = true
    · rw [if_neg (by simp [hg])] at hok ⊢
      cases hf : findIssue db iid with
      | none =>
        rw [hf] at hok
        dsimp only at hok
        exact Resp.noConfusion hok
      | some issue =>
        rw [hf] at hok
        dsimp only at hok ⊢
        cases hp : parseStatus s with
        | none =>
          rw [hp] at hok
          dsimp only at hok
          exact Resp.noConfusion hok
        | some st =>
          exact ⟨st, rfl, rfl⟩
    · rw [if_pos hg] at hok
      dsimp only at hok
      exact Resp.noConfusion hok
  · intro users ops i hi
    exact (inv_run (inv_init users) ops).statusMatch i hi

/-- C3 witness: a concrete accepted transition on `sampleDB` appends exactly
the one expected timeline row. -/
theorem C3_witness :
    parseStatus "acknowledged" = some Status.acknowledged
    ∧ ((update_status sampleDB adminUser "TS-1000" "acknowledged" "checked").1).timeline
        = sampleDB.timeline
          ++ [⟨"TS-1000", Status.acknowledged, "checked", some 1⟩] := by
  obtain ⟨st, h1, h2⟩ :=
    C3_theorem.1 sampleDB adminUser "TS-1000" "acknowledged" "checked" (by rfl)
  have hst : st = Status.acknowledged := by
    rw [show parseStatus "acknowledged" = some Status.acknowledged from rfl] at h1
    exact (Option.some.inj h1).symm
  rw [hst] at h2
  exact ⟨rfl, h2⟩

/-- C6: `accept` fails with the already-assigned error and changes nothing
when `assigned_resolver` is set; on an unassigned issue it succeeds,
self-assigning the caller and stamping status `acknowledged`; hence of
two sequential accepts by different resolvers exactly the first succeeds
and the second receives the already-assigned error. -/
theorem C6_theorem :
    (∀ (db : DB) (a : User) (iid : String) (issue : Issue),
      a.isAuthenticated = true → a.role = "resolver" →
      findIssue db iid = some issue → issue.assignedResolver.isSome = true →
      accept db a iid = (db, Resp.err "ALREADY_ASSIGNED" 400))
    ∧ (∀ (db : DB) (a : User) (iid : String) (issue : Issue),
      a.isAuthenticated = true → a.role = "resolver" →
      findIssue db iid = some issue → issue.assignedResolver = none →
      (accept db a iid).2 = Resp.ok 200
      ∧ findIssue ((accept db a iid).1) iid
          = some { issue with
                   assignedResolver := some a.uid,
                   status := Status.acknowledged })
    ∧ (∀ (db : DB) (aA aB : User) (iid : String) (issue : Issue),
      aA.isAuthenticated = true → aA.role = "resolver" →
      aB.isAuthenticated = true → aB.role = "resolver" →
      findIssue db iid = some issue → issue.assignedResolver = none →
      (accept db aA iid).2 = Resp.ok 200
      ∧ (accept ((accept db aA iid).1) aB iid).2
          = Resp.err "ALREADY_ASSIGNED" 400) := by
  have hfail : ∀ (db : DB) (a : User) (iid : String) (issue : Issue),
      a.isAuthenticated = true → a.role = "resolver" →
      findIssue db iid = some issue → issue.assignedResolver.isSome = true →
      accept db a iid = (db, Resp.err "ALREADY_ASSIGNED" 400) := by
    intro db a iid issue h1 h2 hf ha
    unfold accept
    rw [if_neg (by simp [h1]), if_neg (by simp [h2]), hf]
    dsimp only
    rw [if_pos ha]
  have hok : ∀ (db : DB) (a : User) (iid : String) (issue : Issue),
      a.isAuthenticated = true → a.role = "resolver" →
      findIssue db iid = some issue → issue.assignedResolver = none →
      (accept db a iid).2 = Resp.ok 200
      ∧ findIssue ((accept db a iid).1) iid
          = some { issue with
                   assignedResolver := some a.uid,
                   status := Status.acknowledged } := by
    intro db a iid issue h1 h2 hf ha
    unfold accept
    rw [if_neg (by simp [h1]), if_neg (by simp [h2]), hf]
    dsimp only
    rw [if_neg (by simp [ha])]
    refine ⟨rfl, ?_⟩
    exact findIssue_save
      { issue with assignedResolver := some a.uid, status := Status.acknowledged }
      hf ((findIssue_mem_id hf).2)
  refine ⟨hfail, hok, ?_⟩
  intro db aA aB iid issue h1 h2 h3 h4 hf ha
  obtain ⟨hA, hA2⟩ := hok db aA iid issue h1 h2 hf ha
  refine ⟨hA, ?_⟩
  have hB := hfail ((accept db aA iid).1) aB iid
    { issue with assignedResolver := some aA.uid, status := Status.acknowledged }
    h3 h4 hA2 rfl
  rw [hB]

/-- C6 witness: on `sampleDB`, resolver A's accept succeeds and resolver B's
subsequent accept of the same issue receives the already-assigned error. -/
theorem C6_witness :
    (accept sampleDB resolverA "TS-1000").2 = Resp.ok 200
    ∧ (accept ((accept sampleDB resolverA "TS-1000").1) resolverB "TS-1000").2
        = Resp.err "ALREADY_ASSIGNED" 400 :=
  C6_theorem.2.2 sampleDB resolverA resolverB "TS-1000" sampleIssue rfl rfl rfl
    rfl rfl rfl

/-- Variant of `List.perm_cons_erase` stated for the ambient `BEq` instance. -/
theorem perm_cons_erase_beq {α : Type} [BEq α] [LawfulBEq α] {a : α}
    {l : List α} (h : a ∈ l) : l.Perm (a :: l.erase a) := by
  induction l with
  | nil => cases h
  | cons b t ih =>
    by_cases hb : (b == a) = true
    · have hba : b = a := eq_of_beq hb
      subst hba
      rw [List.erase_cons_head]
    · rw [List.erase_cons_tail hb]
      have hmem : a ∈ t := by
        rcases List.mem_cons.mp h with h1 | h1
        · exact absurd (beq_iff_eq.mpr h1.symm) hb
        · exact h1
      exact ((ih hmem).cons b).trans (List.Perm.swap a b _)

/-- C5: toggling twice is the identity on the membership relation and on the
denormalized counter — on a store whose membership table satisfies its
uniqueness constraint (`Nodup`) and whose stored counter agrees with the
live count, two successive upvote toggles leave the (user, issue) row
present exactly when it was present before and return the stored issue
record (hence its `upvote_count`) to its original value; the same holds
for the comment-like toggle. -/
theorem C5_theorem :
    (∀ (db : DB) (u : User) (iid : String) (issue : Issue),
      u.isAuthenticated = true →
      findIssue db iid = some issue →
      db.upvotes.Nodup →
      issue.upvoteCount = liveUpvoteCount db iid →
      (((u.uid, iid) ∈ ((upvote_toggle (upvote_toggle db u iid).1 u iid).1).upvotes)
        ↔ ((u.uid, iid) ∈ db.upvotes))
      ∧ findIssue ((upvote_toggle (upvote_toggle db u iid).1 u iid).1) iid
          = some issue)
    ∧ (∀ (db : DB) (u : User) (cid : Nat) (c : Comment),
      u.isAuthenticated = true →
      findComment db cid = some c →
      db.commentLikes.Nodup →
      c.likeCount = liveLikeCount db cid →
      (((u.uid, cid) ∈ ((comment_like_toggle (comment_like_toggle db u cid).1 u cid).1).commentLikes)
        ↔ ((u.uid, cid) ∈ db.commentLikes))
      ∧ findComment ((comment_like_toggle (comment_like_toggle db u cid).1 u cid).1) cid
          = some c) := by
  constructor
  · intro db u iid issue hauth hf hnd hcount
    have hgate : ¬ ¬ u.isAuthenticated = true := by simp [hauth]
    by_cases hmem : (u.uid, iid) ∈ db.upvotes
    · have e1 : (upvote_toggle db u iid).1
          = update_upvote_count
              { db with upvotes := db.upvotes.erase (u.uid, iid) } iid := by
        unfold upvote_toggle
        rw [if_neg hgate, hf]
        dsimp only
        rw [if_pos hmem]
      have hfcongr : findIssue
          { db with upvotes := db.upvotes.erase (u.uid, iid) } iid
          = some issue := hf
      have hfi1 : findIssue (update_upvote_count
            { db with upvotes := db.upvotes.erase (u.uid, iid) } iid) iid
          = some { issue with
              upvoteCount := liveUpvoteCount
                { db with upvotes := db.upvotes.erase (u.uid, iid) } iid } := by
        rw [findIssue_update_count, hfcongr]
        rfl
      have hnotmem : (u.uid, iid) ∉ db.upvotes.erase (u.uid, iid) := by
        intro hcon
        exact ((List.Nodup.mem_erase_iff hnd).mp hcon).1 rfl
      have e2 : (upvote_toggle (update_upvote_count
            { db with upvotes := db.upvotes.erase (u.uid, iid) } iid) u iid).1
          = update_upvote_count
              { (update_upvote_count
                  { db with upvotes := db.upvotes.erase (u.uid, iid) } iid) with
                upvotes := db.upvotes.erase (u.uid, iid) ++ [(u.uid, iid)] } iid := by
        unfold upvote_toggle
        rw [if_neg hgate, hfi1]
        dsimp only
        rw [if_neg (show ¬ ((u.uid, iid) ∈ (update_upvote_count
          { db with upvotes := db.upvotes.erase (u.uid, iid) } iid).upvotes)
          from hnotmem)]
        rfl
      have hperm : (db.upvotes.erase (u.uid, iid) ++ [(u.uid, iid)]).Perm
          db.upvotes :=
        (List.perm_append_singleton _ _).trans (perm_cons_erase_beq hmem).symm
      have hc2 : liveUpvoteCount
          { (update_upvote_count
              { db with upvotes := db.upvotes.erase (u.uid, iid) } iid) with
            upvotes := db.upvotes.erase (u.uid, iid) ++ [(u.uid, iid)] } iid
          = issue.upvoteCount := by
        show ((db.upvotes.erase (u.uid, iid) ++ [(u.uid, iid)]).filter
          (fun q => q.2 = iid)).length = issue.upvoteCount
        rw [hcount]
        exact (hperm.filter _).length_eq
      constructor
      · rw [e1, e2]
        have hin : (u.uid, iid)
            ∈ db.upvotes.erase (u.uid, iid) ++ [(u.uid, iid)] :=
          List.mem_append_right _ (List.mem_singleton_self _)
        exact iff_of_true hin hmem
      · rw [e1, e2, findIssue_update_count]
        have hD : findIssue
            { (update_upvote_count
                { db with upvotes := db.upvotes.erase (u.uid, iid) } iid) with
              upvotes := db.upvotes.erase (u.uid, iid) ++ [(u.uid, iid)] } iid
            = some { issue with
                upvoteCount := liveUpvoteCount
                  { db with upvotes := db.upvotes.erase (u.uid, iid) } iid } :=
          hfi1
        rw [hD]
        dsimp only
        rw [hc2]
        rfl
    · have e1 : (upvote_toggle db u iid).1
          = update_upvote_count
              { db with upvotes := db.upvotes ++ [(u.uid, iid)] } iid := by
        unfold upvote_toggle
        rw [if_neg hgate, hf]
        dsimp only
        rw [if_neg hmem]
      have hfcongr : findIssue
          { db with upvotes := db.upvotes ++ [(u.uid, iid)] } iid
          = some issue := hf
      have hfi1 : findIssue (update_upvote_count
            { db with upvotes := db.upvotes ++ [(u.uid, iid)] } iid) iid
          = some { issue with
              upvoteCount := liveUpvoteCount
                { db with upvotes := db.upvotes ++ [(u.uid, iid)] } iid } := by
        rw [findIssue_update_count, hfcongr]
        rfl
      have hmem1 : (u.uid, iid) ∈ db.upvotes ++ [(u.uid, iid)] :=
        List.mem_append_right _ (List.mem_singleton_self _)
      have e2 : (upvote_toggle (update_upvote_count
            { db with upvotes := db.upvotes ++ [(u.uid, iid)] } iid) u iid).1
          = update_upvote_count
              { (update_upvote_count
                  { db with upvotes := db.upvotes ++ [(u.uid, iid)] } iid) with
                upvotes := (db.upvotes ++ [(u.uid, iid)]).erase (u.uid, iid) } iid := by
        unfold upvote_toggle
        rw [if_neg hgate, hfi1]
        dsimp only
        rw [if_pos (show (u.uid, iid) ∈ (update_upvote_count
          { db with upvotes := db.upvotes ++ [(u.uid, iid)] } iid).upvotes
          from hmem1)]
        rfl
      have hErase : (db.upvotes ++ [(u.uid, iid)]).erase (u.uid, iid)
          = db.upvotes := by
        rw [List.erase_append_right _ hmem]
        simp
      have hc2 : liveUpvoteCount
          { (update_upvote_count
              { db with upvotes := db.upvotes ++ [(u.uid, iid)] } iid) with
            upvotes := (db.upvotes ++ [(u.uid, iid)]).erase (u.uid, iid) } iid
          = issue.upvoteCount := by
        show (((db.upvotes ++ [(u.uid, iid)]).erase (u.uid, iid)).filter
          (fun q => q.2 = iid)).length = issue.upvoteCount
        rw [hErase, hcount]
        rfl
      constructor
      · rw [e1, e2]
        show (u.uid, iid) ∈ (db.upvotes ++ [(u.uid, iid)]).erase (u.uid, iid)
          ↔ (u.uid, iid) ∈ db.upvotes
        rw [hErase]
      · rw [e1, e2, findIssue_update_count]
        have hD : findIssue
            { (update_upvote_count
                { db with upvotes := db.upvotes ++ [(u.uid, iid)] } iid) with
              upvotes := (db.upvotes ++ [(u.uid, iid)]).erase (u.uid, iid) } iid
            = some { issue with
                upvoteCount := liveUpvoteCount
                  { db with upvotes := db.upvotes ++ [(u.uid, iid)] } iid } :=
          hfi1
        rw [hD]
        dsimp only
        rw [hc2]
        rfl
  · intro db u cid c hauth hf hnd hcount
    have hgate : ¬ ¬ u.isAuthenticated = true := by simp [hauth]
    by_cases hmem : (u.uid, cid) ∈ db.commentLikes
    · have e1 : (comment_like_toggle db u cid).1
          = update_like_count
              { db with commentLikes := db.commentLikes.erase (u.uid, cid) } cid := by
        unfold comment_like_toggle
        rw [if_neg hgate, hf]
        dsimp only
        rw [if_pos hmem]
      have hfcongr : findComment
          { db with commentLikes := db.commentLikes.erase (u.uid, cid) } cid
          = some c := hf
      have hfi1 : findComment (update_like_count
            { db with commentLikes := db.commentLikes.erase (u.uid, cid) } cid) cid
          = some { c with
              likeCount := liveLikeCount
                { db with commentLikes := db.commentLikes.erase (u.uid, cid) } cid } := by
        rw [findComment_update_count, hfcongr]
        rfl
      have hnotmem : (u.uid, cid) ∉ db.commentLikes.erase (u.uid, cid) := by
        intro hcon
        exact ((List.Nodup.mem_erase_iff hnd).mp hcon).1 rfl
      have e2 : (comment_like_toggle (update_like_count
            { db with commentLikes := db.commentLikes.erase (u.uid, cid) } cid) u cid).1
          = update_like_count
              { (update_like_count
                  { db with commentLikes := db.commentLikes.erase (u.uid, cid) } cid) with
                commentLikes :=
                  db.commentLikes.erase (u.uid, cid) ++ [(u.uid, cid)] } cid := by
        unfold comment_like_toggle
        rw [if_neg hgate, hfi1]
        dsimp only
        rw [if_neg (show ¬ ((u.uid, cid) ∈ (update_like_count
          { db with commentLikes := db.commentLikes.erase (u.uid, cid) } cid).commentLikes)
          from hnotmem)]
        rfl
      have hperm : (db.commentLikes.erase (u.uid, cid) ++ [(u.uid, cid)]).Perm
          db.commentLikes :=
        (List.perm_append_singleton _ _).trans (perm_cons_erase_beq hmem).symm
      have hc2 : liveLikeCount
          { (update_like_count
              { db with commentLikes := db.commentLikes.erase (u.uid, cid) } cid) with
            commentLikes := db.commentLikes.erase (u.uid, cid) ++ [(u.uid, cid)] } cid
          = c.likeCount := by
        show ((db.commentLikes.erase (u.uid, cid) ++ [(u.uid, cid)]).filter
          (fun q => q.2 = cid)).length = c.likeCount
        rw [hcount]
        exact (hperm.filter _).length_eq
      constructor
      · rw [e1, e2]
        have hin : (u.uid, cid)
            ∈ db.commentLikes.erase (u.uid, cid) ++ [(u.uid, cid)] :=
          List.mem_append_right _ (List.mem_singleton_self _)
        exact iff_of_true hin hmem
      · rw [e1, e2, findComment_update_count]
        have hD : findComment
            { (update_like_count
                { db with commentLikes := db.commentLikes.erase (u.uid, cid) } cid) with
              commentLikes := db.commentLikes.erase (u.uid, cid) ++ [(u.uid, cid)] } cid
            = some { c with
                likeCount := liveLikeCount
                  { db with commentLikes := db.commentLikes.erase (u.uid, cid) } cid } :=
          hfi1
        rw [hD]
        dsimp only
        rw [hc2]
        rfl
    · have e1 : (comment_like_toggle db u cid).1
          = update_like_count
              { db with commentLikes := db.commentLikes ++ [(u.uid, cid)] } cid := by
        unfold comment_like_toggle
        rw [if_neg hgate, hf]
        dsimp only
        rw [if_neg hmem]
      have hfcongr : findComment
          { db with commentLikes := db.commentLikes ++ [(u.uid, cid)] } cid
          = some c := hf
      have hfi1 : findComment (update_like_count
            { db with commentLikes := db.commentLikes ++ [(u.uid, cid)] } cid) cid
          = some { c with
              likeCount := liveLikeCount
                { db with commentLikes := db.commentLikes ++ [(u.uid, cid)] } cid } := by
        rw [findComment_update_count, hfcongr]
        rfl
      have hmem1 : (u.uid, cid) ∈ db.commentLikes ++ [(u.uid, cid)] :=
        List.mem_append_right _ (List.mem_singleton_self _)
      have e2 : (comment_like_toggle (update_like_count
            { db with commentLikes := db.commentLikes ++ [(u.uid, cid)] } cid) u cid).1
          = update_like_count
              { (update_like_count
                  { db with commentLikes := db.commentLikes ++ [(u.uid, cid)] } cid) with
                commentLikes :=
                  (db.commentLikes ++ [(u.uid, cid)]).erase (u.uid, cid) } cid := by
        unfold comment_like_toggle
        rw [if_neg hgate, hfi1]
        dsimp only
        rw [if_pos (show (u.uid, cid) ∈ (update_like_count
          { db with commentLikes := db.commentLikes ++ [(u.uid, cid)] } cid).commentLikes
          from hmem1)]
        rfl
      have hErase : (db.commentLikes ++ [(u.uid, cid)]).erase (u.uid, cid)
          = db.commentLikes := by
        rw [List.erase_append_right _ hmem]
        simp
      have hc2 : liveLikeCount
          { (update_like_count
              { db with commentLikes := db.commentLikes ++ [(u.uid, cid)] } cid) with
            commentLikes := (db.commentLikes ++ [(u.uid, cid)]).erase (u.uid, cid) } cid
          = c.likeCount := by
        show (((db.commentLikes ++ [(u.uid, cid)]).erase (u.uid, cid)).filter
          (fun q => q.2 = cid)).length = c.likeCount
        rw [hErase, hcount]
        rfl
      constructor
      · rw [e1, e2]
        show (u.uid, cid) ∈ (db.commentLikes ++ [(u.uid, cid)]).erase (u.uid, cid)
          ↔ (u.uid, cid) ∈ db.commentLikes
        rw [hErase]
      · rw [e1, e2, findComment_update_count]
        have hD : findComment
            { (update_like_count
                { db with commentLikes := db.commentLikes ++ [(u.uid, cid)] } cid) with
              commentLikes := (db.commentLikes ++ [(u.uid, cid)]).erase (u.uid, cid) } cid
            = some { c with
                likeCount := liveLikeCount
                  { db with commentLikes := db.commentLikes ++ [(u.uid, cid)] } cid } :=
          hfi1
        rw [hD]
        dsimp only
        rw [hc2]
        rfl

/-- C5 witness: on `sampleDB` (empty membership tables, counters in sync),
double-toggling the reporter's upvote on the issue and like on the comment
restores the absent memberships and the stored records. -/
theorem C5_witness :
    ((((reporterUser.uid, "TS-1000")
        ∈ ((upvote_toggle (upvote_toggle sampleDB reporterUser "TS-1000").1
            reporterUser "TS-1000").1).upvotes)
      ↔ ((reporterUser.uid, "TS-1000") ∈ sampleDB.upvotes))
      ∧ findIssue ((upvote_toggle (upvote_toggle sampleDB reporterUser "TS-1000").1
          reporterUser "TS-1000").1) "TS-1000" = some sampleIssue)
    ∧ ((((reporterUser.uid, 1)
        ∈ ((comment_like_toggle (comment_like_toggle sampleDB reporterUser 1).1
            reporterUser 1).1).commentLikes)
      ↔ ((reporterUser.uid, 1) ∈ sampleDB.commentLikes))
      ∧ findComment ((comment_like_toggle (comment_like_toggle sampleDB reporterUser 1).1
          reporterUser 1).1) 1 = some sampleComment) :=
  ⟨C5_theorem.1 sampleDB reporterUser "TS-1000" sampleIssue rfl rfl
      List.nodup_nil rfl,
   C5_theorem.2 sampleDB reporterUser 1 sampleComment rfl rfl
      List.nodup_nil rfl⟩

end Townspark
